import Mathlib

/-!
Verification of the place-cache & proximity-query subsystem of the Travel
backend (`backend/src/controllers` place controller: `addPlaceFromGoogleMapsToDb`,
`updatePlaceStatus`, `getNearbyPlaces`).

The controllers are shallowly embedded: the Prisma/PostgreSQL tables become
lists of records in a `DB` structure, each controller becomes a Lean function
from a `DB` and a request body to a new `DB` and a typed outcome, and the raw
SQL distance expression of `getNearbyPlaces` becomes a real-valued function.
Double-precision floats are modelled as real numbers; timestamps as naturals.
-/

namespace Travel

/-! ## Geometry: the distance expression of the `getNearbyPlaces` raw SQL

The SQL computes `6371 * acos(cos(radians(userLat)) * cos(radians(p.lat)) *
cos(radians(p.lng) - radians(userLng)) + sin(radians(userLat)) * sin(radians(p.lat)))`
(spherical law of cosines).  The spec instead states the Haversine formula
`2R·asin(√(sin²(Δφ/2) + cosφ1·cosφ2·sin²(Δλ/2)))`; over the reals the two
agree whenever both latitudes lie in [-90, 90]. -/

/-- SQL `radians(x)`: degrees to radians. -/
noncomputable def rad (deg : ℝ) : ℝ := deg * (Real.pi / 180)

/-- The distance (in km) computed, filtered on and sorted by in the raw SQL of
`getNearbyPlaces`: `6371 * acos(cos(radians(userLat)) * cos(radians(lat)) *
cos(radians(lng) - radians(userLng)) + sin(radians(userLat)) * sin(radians(lat)))`. -/
noncomputable def distanceKmCode (userLat userLng lat lng : ℝ) : ℝ :=
  6371 * Real.arccos (Real.cos (rad userLat) * Real.cos (rad lat) *
    Real.cos (rad lng - rad userLng) + Real.sin (rad userLat) * Real.sin (rad lat))

/-- Modelled from the spec: the Haversine great-circle distance
`d = 2R·asin(√(sin²(Δφ/2) + cosφ1·cosφ2·sin²(Δλ/2)))` with `R = 6371` km,
angles in radians.  This is the spec-side definition that `distanceKmCode`
(the definition taken from the source SQL) is compared against. -/
noncomputable def haversineSpecKm (lat1 lng1 lat2 lng2 : ℝ) : ℝ :=
  2 * 6371 * Real.arcsin (Real.sqrt
    (Real.sin ((rad lat2 - rad lat1) / 2) ^ 2 +
      Real.cos (rad lat1) * Real.cos (rad lat2) *
        Real.sin ((rad lng2 - rad lng1) / 2) ^ 2))

/-- Half-angle identity `sin²(x/2) = (1 - cos x)/2`. -/
theorem sin_half_sq (x : ℝ) : Real.sin (x / 2) ^ 2 = (1 - Real.cos x) / 2 := by
  have hc := Real.cos_two_mul (x / 2)
  rw [show 2 * (x / 2) = x by ring] at hc
  have hs := Real.sin_sq (x / 2)
  linarith

/-- The law-of-cosines argument rewritten through the haversine term
`h = sin²(Δφ/2) + cosφ1·cosφ2·sin²(Δλ/2)`. -/
theorem locos_arg_eq (phi1 phi2 dl : ℝ) :
    Real.cos phi1 * Real.cos phi2 * Real.cos dl + Real.sin phi1 * Real.sin phi2 =
      1 - 2 * (Real.sin ((phi2 - phi1) / 2) ^ 2 +
        Real.cos phi1 * Real.cos phi2 * Real.sin (dl / 2) ^ 2) := by
  have e1 := sin_half_sq (phi2 - phi1)
  have e2 := sin_half_sq dl
  have e3 := Real.cos_sub phi2 phi1
  linear_combination 2 * e1 + 2 * (Real.cos phi1 * Real.cos phi2) * e2 - e3

/-- The haversine term is at most 1 when both cosines are nonnegative. -/
theorem hav_le_one (phi1 phi2 dl : ℝ) (h1 : 0 ≤ Real.cos phi1) (h2 : 0 ≤ Real.cos phi2) :
    Real.sin ((phi2 - phi1) / 2) ^ 2 +
      Real.cos phi1 * Real.cos phi2 * Real.sin (dl / 2) ^ 2 ≤ 1 := by
  have key := locos_arg_eq phi1 phi2 dl
  have hδ : 0 ≤ Real.cos phi1 * Real.cos phi2 * (Real.cos dl + 1) :=
    mul_nonneg (mul_nonneg h1 h2) (by linarith [Real.neg_one_le_cos dl])
  have p1 := Real.sin_sq_add_cos_sq phi1
  have p2 := Real.sin_sq_add_cos_sq phi2
  nlinarith [sq_nonneg (Real.cos phi1 * Real.sin phi2 + Real.sin phi1 * Real.cos phi2),
    sq_nonneg (Real.cos phi1 * Real.cos phi2 - Real.sin phi1 * Real.sin phi2 - 1)]

/-- The haversine term is nonnegative when both cosines are nonnegative. -/
theorem hav_nonneg (phi1 phi2 dl : ℝ) (h1 : 0 ≤ Real.cos phi1) (h2 : 0 ≤ Real.cos phi2) :
    0 ≤ Real.sin ((phi2 - phi1) / 2) ^ 2 +
      Real.cos phi1 * Real.cos phi2 * Real.sin (dl / 2) ^ 2 :=
  add_nonneg (sq_nonneg _) (mul_nonneg (mul_nonneg h1 h2) (sq_nonneg _))

/-- Law of cosines = haversine, at the level of central angles: for latitudes with
nonnegative cosine, `acos(cosφ1·cosφ2·cosΔλ + sinφ1·sinφ2) = 2·asin(√h)`. -/
theorem arccos_eq_two_arcsin (phi1 phi2 dl : ℝ)
    (h1 : 0 ≤ Real.cos phi1) (h2 : 0 ≤ Real.cos phi2) :
    Real.arccos (Real.cos phi1 * Real.cos phi2 * Real.cos dl +
        Real.sin phi1 * Real.sin phi2) =
      2 * Real.arcsin (Real.sqrt (Real.sin ((phi2 - phi1) / 2) ^ 2 +
        Real.cos phi1 * Real.cos phi2 * Real.sin (dl / 2) ^ 2)) := by
  set h : ℝ := Real.sin ((phi2 - phi1) / 2) ^ 2 +
    Real.cos phi1 * Real.cos phi2 * Real.sin (dl / 2) ^ 2 with hdef
  have h0 : 0 ≤ h := hav_nonneg phi1 phi2 dl h1 h2
  have hle : h ≤ 1 := hav_le_one phi1 phi2 dl h1 h2
  set θ : ℝ := Real.arcsin (Real.sqrt h) with θdef
  have hsqrt0 : 0 ≤ Real.sqrt h := Real.sqrt_nonneg h
  have hsqrt1 : Real.sqrt h ≤ 1 := Real.sqrt_le_one.mpr hle
  have hsin : Real.sin θ = Real.sqrt h :=
    Real.sin_arcsin (by linarith) hsqrt1
  have hθ0 : 0 ≤ θ := Real.arcsin_nonneg.mpr hsqrt0
  have hθhalf : θ ≤ Real.pi / 2 := Real.arcsin_le_pi_div_two _
  have hsinsq : Real.sin θ ^ 2 = h := by
    rw [hsin]; exact Real.sq_sqrt h0
  have hcos2 : Real.cos (2 * θ) = 1 - 2 * h := by
    have hc := Real.cos_two_mul θ
    have hp := Real.sin_sq_add_cos_sq θ
    nlinarith [hc, hp, hsinsq]
  rw [locos_arg_eq phi1 phi2 dl, ← hdef, ← hcos2]
  exact Real.arccos_cos (by linarith) (by linarith [Real.pi_pos])

/-- Latitudes in [-90, 90] have nonnegative cosine after conversion to radians. -/
theorem cos_rad_nonneg {lat : ℝ} (hlo : -90 ≤ lat) (hhi : lat ≤ 90) :
    0 ≤ Real.cos (rad lat) := by
  have hpi := Real.pi_pos
  refine Real.cos_nonneg_of_mem_Icc ⟨?_, ?_⟩ <;> unfold rad <;> nlinarith

/-! ## Data model

The Prisma tables (`Trip`, `Place`, `GooglePlaceCache`, `UserSavedPlace` from
`prisma/migrations`) become Lean structures; the database becomes lists of rows.
`DOUBLE PRECISION` is modelled as `ℝ`, `TIMESTAMP` as `Nat`, the `Status` enum
as an inductive type. -/

/-- The `Status` PostgreSQL enum. -/
inductive Status where
  | WISHLIST
  | VISITED
  | SKIPPED
deriving DecidableEq

/-- A `Trip` row (the fields the place controllers touch). -/
structure Trip where
  id : String
  userId : Nat
  name : String

/-- A `Place` row: identity anchor keyed by the Google `placeId`. -/
structure Place where
  placeId : String
  lat : ℝ
  lng : ℝ

/-- The `geometry.location` part of a Google Places payload. -/
structure LatLng where
  lat : ℝ
  lng : ℝ

/-- The `geometry` part of a Google Places payload; `viewport` is kept as an opaque blob. -/
structure Geometry where
  location : Option LatLng
  viewport : Option String

/-- The Google Places payload fields the controller reads.  `types` and
`plus_code` are opaque JSON blobs, modelled as strings. -/
structure GooglePlace where
  place_id : String
  geometry : Option Geometry
  formatted_address : Option String
  types : Option String
  plus_code : Option String

/-- A `GooglePlaceCache` row; `addressJson` stores the whole upstream payload. -/
structure GooglePlaceCache where
  placeId : String
  formattedAddress : Option String
  addressJson : Option GooglePlace
  types : Option String
  plusCode : Option String
  viewport : Option String
  fetchedAt : Nat

/-- A `UserSavedPlace` row. -/
structure UserSavedPlace where
  id : String
  userId : Nat
  placeId : String
  tripId : String
  status : Status
  userNotes : Option String
  visitedAt : Option Nat
  createdAt : Nat
  updatedAt : Nat
deriving DecidableEq

/-- The durable store: one list of rows per table. -/
structure DB where
  trips : List Trip
  places : List Place
  caches : List GooglePlaceCache
  savedPlaces : List UserSavedPlace

/-- Typed outcomes of the controllers.  `badRequest`/`notFound`/`forbidden`
are the 400/404/403 JSON responses; `conflict` is the 400 "You have already
saved this place" response carrying the pre-existing row; `serverError` is the
500 response produced by the catch block. -/
inductive ApiError where
  | badRequest (msg : String)
  | notFound (msg : String)
  | forbidden (msg : String)
  | conflict (existing : UserSavedPlace)
  | serverError
deriving DecidableEq

/-! ## Ingestion: `addPlaceFromGoogleMapsToDb`

The controller body is translated step by step.  Each `await prisma.…` call is
a fallible storage write; the code runs them sequentially with no
`$transaction`, so a write that has happened before a later failure stays in
the database.  `savedWriteFails` injects a storage failure at the
`prisma.userSavedPlace.create` call: the catch block then returns the 500
response while the earlier writes remain visible. -/

/-- Request body of `addPlaceFromGoogleMapsToDb`. -/
structure RequestBody where
  place : Option GooglePlace
  status : Option Status
  userNotes : Option String
  trip_id : Option String

/-- The place upsert of `addPlaceFromGoogleMapsToDb`: look up `Place` by
`placeId`; when absent, `place.create` with a nested `cache.create` writes
the `Place` row and its `GooglePlaceCache` row as one atomic write. -/
def upsertPlace (db : DB) (p : GooglePlace) (loc : LatLng) (now : Nat) : DB :=
  match db.places.find? (fun q => q.placeId == p.place_id) with
  | some _ => db
  | none =>
    { db with
      places := db.places ++ [⟨p.place_id, loc.lat, loc.lng⟩],
      caches := db.caches ++
        [⟨p.place_id, p.formatted_address, some p, p.types, p.plus_code,
          p.geometry.bind (fun g => g.viewport), now⟩] }

/-- The ledger step of `addPlaceFromGoogleMapsToDb`: duplicate-save check,
then `userSavedPlace.create`.  `savedWriteFails` injects a storage failure at
that create: the catch block returns the 500 response and nothing is rolled
back. -/
def savePhase (db : DB) (uid : Nat) (pid : String) (status : Status)
    (userNotes : Option String) (tripId : String) (now : Nat)
    (freshSavedId : String) (savedWriteFails : Bool) :
    DB × Except ApiError UserSavedPlace :=
  match db.savedPlaces.find? (fun s => s.userId == uid && s.placeId == pid) with
  | some existing => (db, .error (.conflict existing))
  | none =>
    if savedWriteFails then
      (db, .error .serverError)
    else
      let sp : UserSavedPlace :=
        ⟨freshSavedId, uid, pid, tripId, status, userNotes,
          if status = Status.VISITED then some now else none, now, now⟩
      ({ db with savedPlaces := db.savedPlaces ++ [sp] }, .ok sp)

/-- Second half of `addPlaceFromGoogleMapsToDb`: place upsert then ledger step. -/
def ingestPlacePhase (db : DB) (uid : Nat) (p : GooglePlace) (loc : LatLng)
    (status : Status) (userNotes : Option String) (tripId : String) (now : Nat)
    (freshSavedId : String) (savedWriteFails : Bool) :
    DB × Except ApiError UserSavedPlace :=
  savePhase (upsertPlace db p loc now) uid p.place_id status userNotes tripId now
    freshSavedId savedWriteFails

/-- JS falsiness of `let tripId = data.trip_id; if (!tripId) …`: the supplied
trip id counts only when present and non-empty. -/
def suppliedTrip (tripField : Option String) : Option String :=
  match tripField with
  | some t => if t = "" then none else some t
  | none => none

/-- Embedding of `addPlaceFromGoogleMapsToDb`: validation, trip resolution, then
`ingestPlacePhase`.  `freshTripId`/`freshSavedId` stand for the ids the
database generates for newly created rows. -/
def ingest (db : DB) (uid : Nat) (body : RequestBody) (now : Nat)
    (freshTripId freshSavedId : String) (savedWriteFails : Bool) :
    DB × Except ApiError UserSavedPlace :=
  match body.place with
  | none => (db, .error (.badRequest "Place data is required in request body"))
  | some p =>
    if p.place_id = "" then
      (db, .error (.badRequest "Google Place ID is required"))
    else
      match p.geometry.bind (fun g => g.location) with
      | none => (db, .error (.badRequest "Place coordinates are required"))
      | some loc =>
        let status := body.status.getD Status.WISHLIST
        match suppliedTrip body.trip_id with
        | none =>
          match db.trips.find? (fun t => t.userId == uid && t.name == "My Trip") with
          | some t =>
            ingestPlacePhase db uid p loc status body.userNotes t.id now
              freshSavedId savedWriteFails
          | none =>
            ingestPlacePhase
              { db with trips := db.trips ++ [⟨freshTripId, uid, "My Trip"⟩] }
              uid p loc status body.userNotes freshTripId now
              freshSavedId savedWriteFails
        | some tid =>
          match db.trips.find? (fun t => t.id == tid) with
          | none => (db, .error (.notFound "Trip not found"))
          | some t =>
            if t.userId ≠ uid then
              (db, .error (.forbidden "You do not have permission to add places to this trip"))
            else
              ingestPlacePhase db uid p loc status body.userNotes tid now
                freshSavedId savedWriteFails

/-! ## Status update: `updatePlaceStatus` -/

/-- Request body of `updatePlaceStatus`. -/
structure UpdateBody where
  place_id : String
  status : Option Status
  userNotes : Option String

/-- The `updateData` object: only supplied fields are written; a supplied
`status` also writes `visitedAt` (`now` on VISITED, null otherwise).
`updatedAt` is bumped by Prisma's `@updatedAt`. -/
def applyUpdate (r : UserSavedPlace) (st : Option Status) (notes : Option String)
    (now : Nat) : UserSavedPlace :=
  { r with
    status := st.getD r.status
    visitedAt :=
      match st with
      | some s => if s = Status.VISITED then some now else none
      | none => r.visitedAt
    userNotes :=
      match notes with
      | some n => some n
      | none => r.userNotes
    updatedAt := now }

/-- Replace the first row matching `p` by `f` of it, leaving the rest alone
(`prisma.….update` on a unique key touches exactly one row). -/
def updateFirst (p : α → Bool) (f : α → α) : List α → List α
  | [] => []
  | x :: xs => if p x then f x :: xs else x :: updateFirst p f xs

/-- Embedding of `updatePlaceStatus`: partial update of the `(userId, place_id)` row.  A
missing row makes `prisma.userSavedPlace.update` throw, which the catch block
maps to the 500 response. -/
def updatePlaceStatus (db : DB) (uid : Nat) (body : UpdateBody) (now : Nat) :
    DB × Except ApiError UserSavedPlace :=
  match db.savedPlaces.find? (fun s => s.userId == uid && s.placeId == body.place_id) with
  | none => (db, .error .serverError)
  | some r =>
    let r2 := applyUpdate r body.status body.userNotes now
    ({ db with
        savedPlaces :=
          updateFirst (fun s => s.userId == uid && s.placeId == body.place_id)
            (fun _ => r2) db.savedPlaces },
      .ok r2)

/-! ## Proximity engine: `getNearbyPlaces`

The raw SQL joins `UserSavedPlace` with `Place` on `placeId`, restricts to the
requesting user (and to the status filter when given), computes the law-of-
cosines distance per row, keeps rows with `distanceKm ≤ radiusKm`, and orders
ascending by `distanceKm`.  The controller then enriches each row with the
place + cache details and rounded distances. -/

/-- One row of the raw SQL result: the saved place, the joined `Place`
coordinates and the computed `"distanceKm"` column. -/
structure NearbyRow where
  sp : UserSavedPlace
  lat : ℝ
  lng : ℝ
  distanceKm : ℝ

/-- The optional `usp.status = $status` conjunct of the WHERE clause. -/
def statusMatches (filt : Option Status) (sp : UserSavedPlace) : Bool :=
  match filt with
  | none => true
  | some s => decide (sp.status = s)

/-- The FROM/JOIN/WHERE part before the radius test: all rows of
`UserSavedPlace ⋈ Place` for this user (and status filter), with the computed
distance column. -/
noncomputable def candidateRows (db : DB) (uid : Nat) (userLat userLng : ℝ)
    (filt : Option Status) : List NearbyRow :=
  (db.savedPlaces.filter (fun sp => sp.userId == uid && statusMatches filt sp)).flatMap
    (fun sp => (db.places.filter (fun q => q.placeId == sp.placeId)).map
      (fun q => ⟨sp, q.lat, q.lng, distanceKmCode userLat userLng q.lat q.lng⟩))

/-- The `distanceKm ≤ radiusKm` conjunct of the WHERE clause. -/
noncomputable def inRadius (radiusKm : ℝ) (r : NearbyRow) : Bool :=
  @decide (r.distanceKm ≤ radiusKm) (Classical.propDecidable _)

/-- The full raw query: WHERE-filtered rows ordered by `"distanceKm" ASC`. -/
noncomputable def nearbyRowsSorted (db : DB) (uid : Nat) (userLat userLng radiusKm : ℝ)
    (filt : Option Status) : List NearbyRow :=
  @List.insertionSort NearbyRow (fun a b => a.distanceKm ≤ b.distanceKm)
    (fun _ _ => Classical.propDecidable _)
    ((candidateRows db uid userLat userLng filt).filter (inRadius radiusKm))

/-- JS `Number(x.toFixed(2))`: round to two decimal places. -/
noncomputable def roundTo2 (x : ℝ) : ℝ := (round (x * 100) : ℤ) / 100

/-- One element of the response's `places` array: the spread SQL row with
`distanceKm` overwritten by its 2-decimal rounding, `distanceMeters`
(`Math.round(distanceKm * 1000)`), and the place + cache details. -/
structure NearbyResult where
  sp : UserSavedPlace
  lat : ℝ
  lng : ℝ
  distanceKm : ℝ
  distanceMeters : ℤ
  place : Option (Place × Option GooglePlaceCache)

/-- The per-row enrichment performed after the raw query
(`prisma.place.findUnique({ include: cache })` plus the rounded distances). -/
noncomputable def enrich (db : DB) (r : NearbyRow) : NearbyResult :=
  { sp := r.sp
    lat := r.lat
    lng := r.lng
    distanceKm := roundTo2 r.distanceKm
    distanceMeters := round (r.distanceKm * 1000)
    place := (db.places.find? (fun q => q.placeId == r.sp.placeId)).map
      (fun q => (q, db.caches.find? (fun c => c.placeId == q.placeId))) }

/-- The `places` array of a successful `getNearbyPlaces` response. -/
noncomputable def nearbyResults (db : DB) (uid : Nat) (userLat userLng radiusKm : ℝ)
    (filt : Option Status) : List NearbyResult :=
  (nearbyRowsSorted db uid userLat userLng radiusKm filt).map (enrich db)

open scoped Classical in
/-- Embedding of `getNearbyPlaces`: query-parameter validation, then the raw query and
enrichment.  `lat`/`lng`/`radius` arrive as optional query parameters;
a missing radius defaults to 2000 meters and `radiusKm = radiusMeters / 1000`. -/
noncomputable def findNearby (db : DB) (uid : Nat) (latq lngq radiusq : Option ℝ)
    (filt : Option Status) : Except ApiError (List NearbyResult) :=
  match latq, lngq with
  | some userLat, some userLng =>
    let radiusMeters := radiusq.getD 2000
    let radiusKm := radiusMeters / 1000
    if userLat < -90 ∨ 90 < userLat then
      .error (.badRequest "Latitude must be between -90 and 90")
    else if userLng < -180 ∨ 180 < userLng then
      .error (.badRequest "Longitude must be between -180 and 180")
    else if radiusMeters ≤ 0 then
      .error (.badRequest "Radius must be greater than 0")
    else
      .ok (nearbyResults db uid userLat userLng radiusKm filt)
  | _, _ =>
    .error (.badRequest "Latitude (lat) and longitude (lng) are required query parameters")

/-- Trip resolution succeeds: either no (non-empty) trip id is supplied, or
the supplied id resolves to a trip owned by the requesting user. -/
def tripOk (db : DB) (uid : Nat) (tripField : Option String) : Prop :=
  match suppliedTrip tripField with
  | none => True
  | some t => ∃ tr, db.trips.find? (fun x => x.id == t) = some tr ∧ tr.userId = uid

/-- The status/visitedAt coupling invariant of a ledger row: `visitedAt` is
non-null exactly when the status is VISITED. -/
def visitedCoupling (s : UserSavedPlace) : Prop :=
  s.visitedAt.isSome = true ↔ s.status = Status.VISITED

/-! ## Helper lemmas -/

theorem upsertPlace_trips (db : DB) (p : GooglePlace) (loc : LatLng) (now : Nat) :
    (upsertPlace db p loc now).trips = db.trips := by
  unfold upsertPlace; split <;> rfl

theorem upsertPlace_savedPlaces (db : DB) (p : GooglePlace) (loc : LatLng) (now : Nat) :
    (upsertPlace db p loc now).savedPlaces = db.savedPlaces := by
  unfold upsertPlace; split <;> rfl

theorem savePhase_conflict {db : DB} {uid : Nat} {pid : String} {ex : UserSavedPlace}
    (st : Status) (notes : Option String) (tid : String) (now : Nat)
    (fsid : String) (fail : Bool)
    (h : db.savedPlaces.find? (fun s => s.userId == uid && s.placeId == pid) = some ex) :
    savePhase db uid pid st notes tid now fsid fail = (db, .error (.conflict ex)) := by
  unfold savePhase; rw [h]

theorem savePhase_ok {db db2 : DB} {uid : Nat} {pid : String} {st : Status}
    {notes : Option String} {tid : String} {now : Nat} {fsid : String} {fail : Bool}
    {sp : UserSavedPlace}
    (h : savePhase db uid pid st notes tid now fsid fail = (db2, .ok sp)) :
    sp = ⟨fsid, uid, pid, tid, st, notes,
        if st = Status.VISITED then some now else none, now, now⟩ ∧
      db2.savedPlaces = db.savedPlaces ++ [sp] ∧
      db2.trips = db.trips ∧ db2.places = db.places ∧ db2.caches = db.caches := by
  unfold savePhase at h
  split at h
  · simp at h
  · split at h
    · simp at h
    · simp only [Prod.mk.injEq, Except.ok.injEq] at h
      obtain ⟨hdb, hsp⟩ := h
      subst hdb
      exact ⟨hsp.symm, by rw [hsp], rfl, rfl, rfl⟩

theorem ingestPlacePhase_ok {db db2 : DB} {uid : Nat} {p : GooglePlace} {loc : LatLng}
    {st : Status} {notes : Option String} {tid : String} {now : Nat} {fsid : String}
    {fail : Bool} {sp : UserSavedPlace}
    (h : ingestPlacePhase db uid p loc st notes tid now fsid fail = (db2, .ok sp)) :
    sp = ⟨fsid, uid, p.place_id, tid, st, notes,
        if st = Status.VISITED then some now else none, now, now⟩ ∧
      db2.savedPlaces = db.savedPlaces ++ [sp] ∧ db2.trips = db.trips := by
  unfold ingestPlacePhase at h
  obtain ⟨h1, h2, h3, _, _⟩ := savePhase_ok h
  exact ⟨h1, by rw [h2, upsertPlace_savedPlaces], by rw [h3, upsertPlace_trips]⟩

theorem mem_updateFirst {α : Type} {p : α → Bool} {f : α → α} :
    ∀ {l : List α} {s : α}, s ∈ updateFirst p f l → s ∈ l ∨ ∃ x ∈ l, s = f x := by
  intro l
  induction l with
  | nil => intro s h; cases h
  | cons x xs ih =>
    intro s h
    unfold updateFirst at h
    split at h
    · rcases List.mem_cons.mp h with h' | h'
      · exact Or.inr ⟨x, List.mem_cons_self x xs, h'⟩
      · exact Or.inl (List.mem_cons_of_mem x h')
    · rcases List.mem_cons.mp h with h' | h'
      · exact Or.inl (h' ▸ List.mem_cons_self x xs)
      · rcases ih h' with h'' | ⟨y, hy, hs⟩
        · exact Or.inl (List.mem_cons_of_mem x h'')
        · exact Or.inr ⟨y, List.mem_cons_of_mem x hy, hs⟩

theorem ingest_ok_spec {db db2 : DB} {uid : Nat} {body : RequestBody} {now : Nat}
    {ftid fsid : String} {fail : Bool} {sp : UserSavedPlace}
    (h : ingest db uid body now ftid fsid fail = (db2, .ok sp)) :
    sp.userId = uid ∧
      sp.status = body.status.getD Status.WISHLIST ∧
      sp.userNotes = body.userNotes ∧
      sp.visitedAt = (if body.status.getD Status.WISHLIST = Status.VISITED
        then some now else none) ∧
      db2.savedPlaces = db.savedPlaces ++ [sp] ∧
      ∃ tr ∈ db2.trips, tr.id = sp.tripId ∧ tr.userId = uid ∧
        (suppliedTrip body.trip_id = none → tr.name = "My Trip") := by
  unfold ingest at h
  split at h
  · simp at h
  next p hp =>
    split at h
    · simp at h
    · split at h
      · simp at h
      next loc hloc =>
        split at h
        next hst =>
          split at h
          next t hft =>
            obtain ⟨hsp, hsaved, htrips⟩ := ingestPlacePhase_ok h
            have hmem : t ∈ db.trips := List.mem_of_find?_eq_some hft
            have hpred := List.find?_some hft
            simp only [Bool.and_eq_true, beq_iff_eq] at hpred
            refine ⟨by rw [hsp], by rw [hsp], by rw [hsp], by rw [hsp], hsaved,
              t, by rw [htrips]; exact hmem, by rw [hsp],
              hpred.1, fun _ => hpred.2⟩
          next hft =>
            obtain ⟨hsp, hsaved, htrips⟩ := ingestPlacePhase_ok h
            refine ⟨by rw [hsp], by rw [hsp], by rw [hsp], by rw [hsp], hsaved,
              ⟨ftid, uid, "My Trip"⟩, ?_, by rw [hsp], rfl, fun _ => rfl⟩
            rw [htrips]
            exact List.mem_append.mpr (Or.inr (List.mem_singleton.mpr rfl))
        next tid hst =>
          split at h
          · simp at h
          next t hft =>
            split at h
            · simp at h
            next hne =>
              obtain ⟨hsp, hsaved, htrips⟩ := ingestPlacePhase_ok h
              have hmem : t ∈ db.trips := List.mem_of_find?_eq_some hft
              have hpred := List.find?_some hft
              simp only [beq_iff_eq] at hpred
              have huid : t.userId = uid := by
                by_contra hcon
                exact hne hcon
              refine ⟨by rw [hsp], by rw [hsp], by rw [hsp], by rw [hsp], hsaved,
                t, by rw [htrips]; exact hmem, by rw [hsp, hpred], huid,
                fun hnone => by rw [hst] at hnone; cases hnone⟩

theorem savePhase_cases {db db2 : DB} {uid : Nat} {pid : String} {st : Status}
    {notes : Option String} {tid : String} {now : Nat} {fsid : String} {fail : Bool}
    {r : Except ApiError UserSavedPlace}
    (h : savePhase db uid pid st notes tid now fsid fail = (db2, r)) :
    db2.savedPlaces = db.savedPlaces ∨
      ∃ sp, r = .ok sp ∧ db2.savedPlaces = db.savedPlaces ++ [sp] := by
  unfold savePhase at h
  split at h
  · injection h with h1 h2; subst h1; exact Or.inl rfl
  · split at h
    · injection h with h1 h2; subst h1; exact Or.inl rfl
    · injection h with h1 h2
      subst h1
      exact Or.inr ⟨_, h2.symm, rfl⟩

theorem ingest_cases {db db2 : DB} {uid : Nat} {body : RequestBody} {now : Nat}
    {ftid fsid : String} {fail : Bool} {r : Except ApiError UserSavedPlace}
    (h : ingest db uid body now ftid fsid fail = (db2, r)) :
    db2.savedPlaces = db.savedPlaces ∨
      ∃ sp, r = .ok sp ∧ db2.savedPlaces = db.savedPlaces ++ [sp] := by
  unfold ingest at h
  split at h
  · injection h with h1 _; subst h1; exact Or.inl rfl
  · split at h
    · injection h with h1 _; subst h1; exact Or.inl rfl
    · split at h
      · injection h with h1 _; subst h1; exact Or.inl rfl
      · split at h
        · split at h <;>
          · unfold ingestPlacePhase at h
            rcases savePhase_cases h with hsame | ⟨sp, hok, happ⟩
            · exact Or.inl (by rw [hsame, upsertPlace_savedPlaces])
            · exact Or.inr ⟨sp, hok, by rw [happ, upsertPlace_savedPlaces]⟩
        · split at h
          · injection h with h1 _; subst h1; exact Or.inl rfl
          · split at h
            · injection h with h1 _; subst h1; exact Or.inl rfl
            · unfold ingestPlacePhase at h
              rcases savePhase_cases h with hsame | ⟨sp, hok, happ⟩
              · exact Or.inl (by rw [hsame, upsertPlace_savedPlaces])
              · exact Or.inr ⟨sp, hok, by rw [happ, upsertPlace_savedPlaces]⟩

theorem updatePlaceStatus_ok {db db2 : DB} {uid : Nat} {body : UpdateBody}
    {now : Nat} {r2 : UserSavedPlace}
    (h : updatePlaceStatus db uid body now = (db2, .ok r2)) :
    ∃ r, db.savedPlaces.find?
        (fun s => s.userId == uid && s.placeId == body.place_id) = some r ∧
      r2 = applyUpdate r body.status body.userNotes now ∧
      db2 = { db with
        savedPlaces :=
          updateFirst (fun s => s.userId == uid && s.placeId == body.place_id)
            (fun _ => r2) db.savedPlaces } := by
  unfold updatePlaceStatus at h
  split at h
  · simp at h
  next r hr =>
    injection h with h1 h2
    injection h2 with h2
    subst h2
    subst h1
    exact ⟨r, hr, rfl, rfl⟩

theorem ingest_ok_coupling {db db2 : DB} {uid : Nat} {body : RequestBody}
    {now : Nat} {ftid fsid : String} {fail : Bool} {sp : UserSavedPlace}
    (h : ingest db uid body now ftid fsid fail = (db2, .ok sp)) :
    visitedCoupling sp := by
  obtain ⟨_, hstat, _, hvis, _⟩ := ingest_ok_spec h
  unfold visitedCoupling
  rw [hvis, hstat]
  by_cases hv : body.status.getD Status.WISHLIST = Status.VISITED <;> simp [hv]

theorem applyUpdate_coupling {r : UserSavedPlace} {st : Option Status}
    {notes : Option String} {now : Nat} (hc : visitedCoupling r) :
    visitedCoupling (applyUpdate r st notes now) := by
  unfold visitedCoupling applyUpdate at *
  cases st with
  | none => simpa using hc
  | some s => by_cases hv : s = Status.VISITED <;> simp [hv]

/-! ## Claim theorems: geometry -/

/-- Claim C2: the distance value `getNearbyPlaces` computes, filters on and
sorts by (the SQL law-of-cosines expression, embedded as `distanceKmCode`)
equals the Haversine great-circle distance
`2R·asin(√(sin²(Δφ/2) + cosφ1·cosφ2·sin²(Δλ/2)))` with `R = 6371` km, for all
query points and stored coordinates with latitudes in [-90, 90]. -/
theorem haversine_equivalence (lat1 lng1 lat2 lng2 : ℝ)
    (h1lo : -90 ≤ lat1) (h1hi : lat1 ≤ 90) (h2lo : -90 ≤ lat2) (h2hi : lat2 ≤ 90) :
    distanceKmCode lat1 lng1 lat2 lng2 = haversineSpecKm lat1 lng1 lat2 lng2 := by
  unfold distanceKmCode haversineSpecKm
  rw [arccos_eq_two_arcsin (rad lat1) (rad lat2) (rad lng2 - rad lng1)
    (cos_rad_nonneg h1lo h1hi) (cos_rad_nonneg h2lo h2hi)]
  ring_nf

/-- Witness for C2: the equivalence applied at the Bangkok coordinates of the
spec's Scenario A against the origin. -/
theorem haversine_equivalence_witness :
    distanceKmCode 13.7563 100.5018 0 0 = haversineSpecKm 13.7563 100.5018 0 0 :=
  haversine_equivalence 13.7563 100.5018 0 0 (by norm_num) (by norm_num)
    (by norm_num) (by norm_num)

/-- Claim C7: the proximity engine's distance function vanishes on the
diagonal, is symmetric, and maps two points one degree of latitude apart on
the equator to ≈ 111.2 km (within ±1%). -/
theorem distance_algebraic_properties :
    (∀ lat lng : ℝ, distanceKmCode lat lng lat lng = 0) ∧
      (∀ lat1 lng1 lat2 lng2 : ℝ,
        distanceKmCode lat1 lng1 lat2 lng2 = distanceKmCode lat2 lng2 lat1 lng1) ∧
      |distanceKmCode 0 0 1 0 - 111.2| ≤ 111.2 / 100 := by
  refine ⟨?_, ?_, ?_⟩
  · intro lat lng
    unfold distanceKmCode
    rw [sub_self, Real.cos_zero]
    have harg : Real.cos (rad lat) * Real.cos (rad lat) * 1 +
        Real.sin (rad lat) * Real.sin (rad lat) = 1 := by
      have := Real.sin_sq_add_cos_sq (rad lat); nlinarith
    rw [harg, Real.arccos_one, mul_zero]
  · intro lat1 lng1 lat2 lng2
    unfold distanceKmCode
    congr 1
    rw [show rad lng1 - rad lng2 = -(rad lng2 - rad lng1) by ring, Real.cos_neg]
    ring_nf
  · have hrad0 : rad 0 = 0 := by unfold rad; ring
    have harg : distanceKmCode 0 0 1 0 = 6371 * Real.arccos (Real.cos (rad 1)) := by
      unfold distanceKmCode
      rw [hrad0, sub_self, Real.cos_zero, Real.sin_zero]
      norm_num
    have hpi := Real.pi_pos
    have hrange : Real.arccos (Real.cos (rad 1)) = rad 1 := by
      refine Real.arccos_cos ?_ ?_ <;> unfold rad <;> nlinarith
    rw [harg, hrange]
    unfold rad
    rw [abs_le]
    constructor <;> nlinarith [Real.pi_gt_d6, Real.pi_lt_d6]

/-! ## Claim theorems: ingestion ledger -/

/-- Claim C3: when a SavedPlace row for `(userId, placeId)` already exists,
ingestion creates no second row and returns the conflict outcome carrying the
pre-existing row; the ledger is left exactly as it was (so the existing row is
neither duplicated nor overwritten).  Holds for any ingestion attempt that
passes payload validation and trip resolution, with or without a storage
failure injected at the create. -/
theorem save_idempotence_conflict (db : DB) (uid : Nat) (p : GooglePlace)
    (loc : LatLng) (st : Option Status) (notes : Option String)
    (tripField : Option String) (now : Nat) (ftid fsid : String) (fail : Bool)
    (ex : UserSavedPlace)
    (hpid : ¬ p.place_id = "")
    (hloc : p.geometry.bind (fun g => g.location) = some loc)
    (htrip : tripOk db uid tripField)
    (hex : db.savedPlaces.find?
      (fun s => s.userId == uid && s.placeId == p.place_id) = some ex) :
    ∃ db2 : DB,
      ingest db uid ⟨some p, st, notes, tripField⟩ now ftid fsid fail =
        (db2, .error (.conflict ex)) ∧
      db2.savedPlaces = db.savedPlaces := by
  have hphase : ∀ (db1 : DB) (st2 : Status) (tid : String),
      db1.savedPlaces = db.savedPlaces →
      ingestPlacePhase db1 uid p loc st2 notes tid now fsid fail =
        (upsertPlace db1 p loc now, .error (.conflict ex)) ∧
      (upsertPlace db1 p loc now).savedPlaces = db.savedPlaces := by
    intro db1 st2 tid hsame
    have hfind : (upsertPlace db1 p loc now).savedPlaces.find?
        (fun s => s.userId == uid && s.placeId == p.place_id) = some ex := by
      rw [upsertPlace_savedPlaces, hsame]; exact hex
    exact ⟨savePhase_conflict st2 notes tid now fsid fail hfind,
      by rw [upsertPlace_savedPlaces, hsame]⟩
  unfold tripOk at htrip
  cases hst : suppliedTrip tripField with
  | none =>
    cases hft : db.trips.find? (fun t => t.userId == uid && t.name == "My Trip") with
    | none =>
      refine ⟨upsertPlace { db with trips := db.trips ++ [⟨ftid, uid, "My Trip"⟩] } p loc now,
        ?_, (hphase { db with trips := db.trips ++ [⟨ftid, uid, "My Trip"⟩] }
          (st.getD Status.WISHLIST) ftid rfl).2⟩
      simp only [ingest, if_neg hpid, hloc, hst, hft]
      exact (hphase { db with trips := db.trips ++ [⟨ftid, uid, "My Trip"⟩] }
        (st.getD Status.WISHLIST) ftid rfl).1
    | some t =>
      refine ⟨upsertPlace db p loc now, ?_, (hphase db (st.getD Status.WISHLIST) t.id rfl).2⟩
      simp only [ingest, if_neg hpid, hloc, hst, hft]
      exact (hphase db (st.getD Status.WISHLIST) t.id rfl).1
  | some tid =>
    rw [hst] at htrip
    obtain ⟨tr, hfind, huid⟩ := htrip
    refine ⟨upsertPlace db p loc now, ?_, (hphase db (st.getD Status.WISHLIST) tid rfl).2⟩
    simp only [ingest, if_neg hpid, hloc, hst, hfind, if_neg (not_not_intro huid)]
    exact (hphase db (st.getD Status.WISHLIST) tid rfl).1

/-- Witness for C3: a user who has already saved place `"X1"` ingests it a
second time and gets the conflict outcome carrying the original row, with the
ledger unchanged. -/
theorem save_idempotence_conflict_witness :
    ∃ db2 : DB,
      ingest ⟨[], [⟨"X1", 1, 2⟩], [],
          [⟨"s0", 7, "X1", "t0", Status.WISHLIST, none, none, 5, 5⟩]⟩ 7
        ⟨some ⟨"X1", some ⟨some ⟨1, 2⟩, none⟩, none, none, none⟩, none, none, none⟩
        9 "t9" "s9" false =
        (db2, .error (.conflict ⟨"s0", 7, "X1", "t0", Status.WISHLIST, none, none, 5, 5⟩)) ∧
      db2.savedPlaces = [⟨"s0", 7, "X1", "t0", Status.WISHLIST, none, none, 5, 5⟩] :=
  save_idempotence_conflict _ 7 _ ⟨1, 2⟩ none none none 9 "t9" "s9" false _
    (by decide) rfl trivial rfl

/-- Claim C4: after every ingestion and after every status update, `visitedAt`
is non-null iff the row's status is VISITED.  Concretely: a successful
ingestion's new row satisfies the coupling, with `visitedAt = now` exactly when
the effective initial status is VISITED and null otherwise; a successful update
preserves the coupling, sets `visitedAt = now` on entering VISITED and clears
it on any supplied non-VISITED status; and both operations preserve the
coupling across every row of the store, for every outcome. -/
theorem visited_iff_status_coupling :
    (∀ db uid body now ftid fsid fail db2 sp,
        ingest db uid body now ftid fsid fail = (db2, Except.ok sp) →
        visitedCoupling sp ∧
          (body.status.getD Status.WISHLIST = Status.VISITED →
            sp.visitedAt = some now) ∧
          (body.status.getD Status.WISHLIST ≠ Status.VISITED →
            sp.visitedAt = none)) ∧
      (∀ db uid body now db2 r2,
        updatePlaceStatus db uid body now = (db2, Except.ok r2) →
        ((∀ s ∈ db.savedPlaces, visitedCoupling s) → visitedCoupling r2) ∧
          (body.status = some Status.VISITED → r2.visitedAt = some now) ∧
          (∀ s2, body.status = some s2 → s2 ≠ Status.VISITED →
            r2.visitedAt = none)) ∧
      (∀ db uid body now ftid fsid fail db2 r,
        (∀ s ∈ db.savedPlaces, visitedCoupling s) →
        ingest db uid body now ftid fsid fail = (db2, r) →
        ∀ s ∈ db2.savedPlaces, visitedCoupling s) ∧
      (∀ db uid body now db2 r,
        (∀ s ∈ db.savedPlaces, visitedCoupling s) →
        updatePlaceStatus db uid body now = (db2, r) →
        ∀ s ∈ db2.savedPlaces, visitedCoupling s) := by
  refine ⟨?_, ?_, ?_, ?_⟩
  · intro db uid body now ftid fsid fail db2 sp h
    obtain ⟨_, _, _, hvis, _⟩ := ingest_ok_spec h
    exact ⟨ingest_ok_coupling h,
      fun hv => by rw [hvis, if_pos hv],
      fun hv => by rw [hvis, if_neg hv]⟩
  · intro db uid body now db2 r2 h
    obtain ⟨r, hfind, hr2, _⟩ := updatePlaceStatus_ok h
    refine ⟨fun hinv =>
      hr2 ▸ applyUpdate_coupling (hinv r (List.mem_of_find?_eq_some hfind)),
      ?_, ?_⟩
    · intro hb; rw [hr2, hb]; simp [applyUpdate]
    · intro s2 hb hne; rw [hr2, hb]; simp [applyUpdate, hne]
  · intro db uid body now ftid fsid fail db2 r hinv h s hs
    rcases ingest_cases h with hsame | ⟨sp, hok, happ⟩
    · exact hinv s (hsame ▸ hs)
    · rw [happ] at hs
      rcases List.mem_append.mp hs with h1 | h1
      · exact hinv s h1
      · rw [List.mem_singleton] at h1
        subst h1
        exact ingest_ok_coupling (hok ▸ h)
  · intro db uid body now db2 r hinv h s hs
    unfold updatePlaceStatus at h
    split at h
    · injection h with h1 _; subst h1; exact hinv s hs
    next r0 hr0 =>
      injection h with h1 _
      subst h1
      rcases mem_updateFirst hs with h1 | ⟨x, hx, rfl⟩
      · exact hinv s h1
      · exact applyUpdate_coupling (hinv r0 (List.mem_of_find?_eq_some hr0))

/-- Witness for C4: ingesting place `"X1"` with initial status VISITED into an
empty store yields a row with `visitedAt = now` that satisfies the coupling. -/
theorem visited_iff_status_coupling_witness :
    visitedCoupling ⟨"s9", 7, "X1", "t9", Status.VISITED, none, some 9, 9, 9⟩ :=
  (visited_iff_status_coupling.1 ⟨[], [], [], []⟩ 7
    ⟨some ⟨"X1", some ⟨some ⟨1, 2⟩, none⟩, none, none, none⟩,
      some Status.VISITED, none, none⟩ 9 "t9" "s9" false _ _ rfl).1

/-- Claim C9: trip resolution.  A supplied trip id that matches no trip makes
ingestion fail with the NotFound outcome; a supplied trip owned by a different
user makes it fail with the Forbidden outcome, which is distinct from NotFound;
with no trip supplied, a successful ingestion uses a default trip of the
requesting user named "My Trip" (found or freshly created). -/
theorem trip_resolution (db : DB) (uid : Nat) (p : GooglePlace) (loc : LatLng)
    (st : Option Status) (notes : Option String) (now : Nat) (ftid fsid : String)
    (fail : Bool)
    (hpid : ¬ p.place_id = "")
    (hloc : p.geometry.bind (fun g => g.location) = some loc) :
    (∀ tid, ¬ tid = "" →
        db.trips.find? (fun t => t.id == tid) = none →
        ingest db uid ⟨some p, st, notes, some tid⟩ now ftid fsid fail =
          (db, .error (.notFound "Trip not found"))) ∧
      (∀ tid tr, ¬ tid = "" →
        db.trips.find? (fun t => t.id == tid) = some tr →
        tr.userId ≠ uid →
        ingest db uid ⟨some p, st, notes, some tid⟩ now ftid fsid fail =
          (db, .error
            (.forbidden "You do not have permission to add places to this trip"))) ∧
      (∀ m1 m2, ApiError.notFound m1 ≠ ApiError.forbidden m2) ∧
      (∀ db2 sp,
        ingest db uid ⟨some p, st, notes, none⟩ now ftid fsid fail =
          (db2, Except.ok sp) →
        ∃ tr ∈ db2.trips, tr.id = sp.tripId ∧ tr.userId = uid ∧
          tr.name = "My Trip") := by
  refine ⟨?_, ?_, fun m1 m2 h => ApiError.noConfusion h, ?_⟩
  · intro tid htid hfind
    simp only [ingest, if_neg hpid, hloc, suppliedTrip, if_neg htid, hfind]
  · intro tid tr htid hfind hne
    simp only [ingest, if_neg hpid, hloc, suppliedTrip, if_neg htid, hfind,
      if_pos hne]
  · intro db2 sp h
    obtain ⟨_, _, _, _, _, tr, htrmem, hid, huid, hname⟩ := ingest_ok_spec h
    exact ⟨tr, htrmem, hid, huid, hname rfl⟩

/-- Witness for C9: ingesting with the unknown trip id `"t2"` fails with
NotFound and leaves the store unchanged. -/
theorem trip_resolution_witness :
    ingest ⟨[⟨"t1", 5, "Other"⟩], [], [], []⟩ 7
        ⟨some ⟨"X1", some ⟨some ⟨1, 2⟩, none⟩, none, none, none⟩, none, none,
          some "t2"⟩ 9 "t9" "s9" false =
      (⟨[⟨"t1", 5, "Other"⟩], [], [], []⟩, .error (.notFound "Trip not found")) :=
  (trip_resolution ⟨[⟨"t1", 5, "Other"⟩], [], [], []⟩ 7
      ⟨"X1", some ⟨some ⟨1, 2⟩, none⟩, none, none, none⟩ ⟨1, 2⟩ none none 9
      "t9" "s9" false (by decide) rfl).1 "t2" (by decide) rfl

/-- Claim C8: `updatePlaceStatus` is a partial update.  On the found
`(userId, place_id)` row: identity fields are untouched; an omitted `status`
leaves both `status` and `visitedAt` unchanged; an omitted `userNotes` leaves
`userNotes` unchanged; a supplied `status` writes it together with the
`visitedAt` side effect; a supplied `userNotes` writes it; the other tables
and all other rows are untouched. -/
theorem partial_status_update (db : DB) (uid : Nat) (pid : String)
    (st : Option Status) (notes : Option String) (now : Nat) (r : UserSavedPlace)
    (hfind : db.savedPlaces.find?
      (fun s => s.userId == uid && s.placeId == pid) = some r) :
    (updatePlaceStatus db uid ⟨pid, st, notes⟩ now).2 =
        .ok (applyUpdate r st notes now) ∧
      (applyUpdate r st notes now).id = r.id ∧
      (applyUpdate r st notes now).userId = r.userId ∧
      (applyUpdate r st notes now).placeId = r.placeId ∧
      (applyUpdate r st notes now).tripId = r.tripId ∧
      (applyUpdate r st notes now).createdAt = r.createdAt ∧
      (st = none → (applyUpdate r st notes now).status = r.status ∧
        (applyUpdate r st notes now).visitedAt = r.visitedAt) ∧
      (notes = none → (applyUpdate r st notes now).userNotes = r.userNotes) ∧
      (∀ s2, st = some s2 → (applyUpdate r st notes now).status = s2 ∧
        (applyUpdate r st notes now).visitedAt =
          (if s2 = Status.VISITED then some now else none)) ∧
      (∀ n, notes = some n → (applyUpdate r st notes now).userNotes = some n) ∧
      (updatePlaceStatus db uid ⟨pid, st, notes⟩ now).1.trips = db.trips ∧
      (updatePlaceStatus db uid ⟨pid, st, notes⟩ now).1.places = db.places ∧
      (updatePlaceStatus db uid ⟨pid, st, notes⟩ now).1.caches = db.caches ∧
      (∀ s ∈ (updatePlaceStatus db uid ⟨pid, st, notes⟩ now).1.savedPlaces,
        s = applyUpdate r st notes now ∨ s ∈ db.savedPlaces) := by
  have hupd : updatePlaceStatus db uid ⟨pid, st, notes⟩ now =
      ({ db with
          savedPlaces :=
            updateFirst (fun s => s.userId == uid && s.placeId == pid)
              (fun _ => applyUpdate r st notes now) db.savedPlaces },
        .ok (applyUpdate r st notes now)) := by
    unfold updatePlaceStatus
    rw [hfind]
  refine ⟨by rw [hupd], rfl, rfl, rfl, rfl, rfl, ?_, ?_, ?_, ?_,
    by rw [hupd], by rw [hupd], by rw [hupd], ?_⟩
  · intro h; subst h; exact ⟨rfl, rfl⟩
  · intro h; subst h; rfl
  · intro s2 h; subst h; exact ⟨rfl, rfl⟩
  · intro n h; subst h; rfl
  · intro s hs
    rw [hupd] at hs
    rcases mem_updateFirst hs with h1 | ⟨x, _, rfl⟩
    · exact Or.inr h1
    · exact Or.inl rfl

/-- Witness for C8: an update supplying only `userNotes` on a VISITED row. -/
theorem partial_status_update_witness :
    (updatePlaceStatus
        ⟨[], [], [], [⟨"s0", 7, "X1", "t0", Status.VISITED, none, some 5, 5, 5⟩]⟩
        7 ⟨"X1", none, some "great"⟩ 9).2 =
      .ok (applyUpdate ⟨"s0", 7, "X1", "t0", Status.VISITED, none, some 5, 5, 5⟩
        none (some "great") 9) :=
  (partial_status_update
    ⟨[], [], [], [⟨"s0", 7, "X1", "t0", Status.VISITED, none, some 5, 5, 5⟩]⟩
    7 "X1" none (some "great") 9
    ⟨"s0", 7, "X1", "t0", Status.VISITED, none, some 5, 5, 5⟩ rfl).1

/-- Claim C1 fails on the code: the three writes of ingestion are not wrapped
in a transaction, so a storage failure at the `userSavedPlace.create` (after a
successful `place.create` with nested cache create) leaves the new Place and
GooglePlaceCache rows observable while no SavedPlace row exists and the
operation reports a server error — a partial write. -/
theorem nontransactional_partial_write :
    ((ingest ⟨[⟨"t1", 7, "My Trip"⟩], [], [], []⟩ 7
        ⟨some ⟨"X1", some ⟨some ⟨13.7563, 100.5018⟩, none⟩, none, none, none⟩,
          none, none, none⟩ 100 "t2" "s1" true).2 = .error .serverError) ∧
      ((ingest ⟨[⟨"t1", 7, "My Trip"⟩], [], [], []⟩ 7
        ⟨some ⟨"X1", some ⟨some ⟨13.7563, 100.5018⟩, none⟩, none, none, none⟩,
          none, none, none⟩ 100 "t2" "s1" true).1.places.map Place.placeId
        = ["X1"]) ∧
      ((ingest ⟨[⟨"t1", 7, "My Trip"⟩], [], [], []⟩ 7
        ⟨some ⟨"X1", some ⟨some ⟨13.7563, 100.5018⟩, none⟩, none, none, none⟩,
          none, none, none⟩ 100 "t2" "s1" true).1.caches.map
          GooglePlaceCache.placeId = ["X1"]) ∧
      ((ingest ⟨[⟨"t1", 7, "My Trip"⟩], [], [], []⟩ 7
        ⟨some ⟨"X1", some ⟨some ⟨13.7563, 100.5018⟩, none⟩, none, none, none⟩,
          none, none, none⟩ 100 "t2" "s1" true).1.savedPlaces = []) :=
  ⟨rfl, rfl, rfl, rfl⟩

/-! ## Helper lemmas: proximity engine -/

theorem findNearby_ok {db : DB} {uid : Nat} {userLat userLng : ℝ}
    {radiusq : Option ℝ} {filt : Option Status} {out : List NearbyResult}
    (h : findNearby db uid (some userLat) (some userLng) radiusq filt = .ok out) :
    out = nearbyResults db uid userLat userLng (radiusq.getD 2000 / 1000) filt := by
  unfold findNearby at h
  dsimp only at h
  split_ifs at h
  · exact ((Except.ok.inj h).symm)

theorem mem_candidateRows {db : DB} {uid : Nat} {a b : ℝ} {filt : Option Status}
    {r : NearbyRow} :
    r ∈ candidateRows db uid a b filt ↔
      ∃ sp ∈ db.savedPlaces, ∃ q ∈ db.places,
        sp.userId = uid ∧ statusMatches filt sp = true ∧ q.placeId = sp.placeId ∧
        r = ⟨sp, q.lat, q.lng, distanceKmCode a b q.lat q.lng⟩ := by
  unfold candidateRows
  simp only [List.mem_flatMap, List.mem_filter, List.mem_map, Bool.and_eq_true,
    beq_iff_eq]
  constructor
  · rintro ⟨sp, ⟨hsp, huid, hstat⟩, q, ⟨hq, hqid⟩, rfl⟩
    exact ⟨sp, hsp, q, hq, huid, hstat, hqid, rfl⟩
  · rintro ⟨sp, hsp, q, hq, huid, hstat, hqid, rfl⟩
    exact ⟨sp, ⟨hsp, huid, hstat⟩, q, ⟨hq, hqid⟩, rfl⟩

theorem candidateRows_distance {db : DB} {uid : Nat} {a b : ℝ}
    {filt : Option Status} {r : NearbyRow}
    (hr : r ∈ candidateRows db uid a b filt) :
    r.distanceKm = distanceKmCode a b r.lat r.lng := by
  rcases mem_candidateRows.mp hr with ⟨sp, _, q, _, _, _, _, rfl⟩
  rfl

theorem mem_nearbyRowsSorted {db : DB} {uid : Nat} {a b rk : ℝ}
    {filt : Option Status} {r : NearbyRow} :
    r ∈ nearbyRowsSorted db uid a b rk filt ↔
      r ∈ candidateRows db uid a b filt ∧ r.distanceKm ≤ rk := by
  unfold nearbyRowsSorted
  rw [List.Perm.mem_iff (@List.perm_insertionSort NearbyRow
    (fun x y => x.distanceKm ≤ y.distanceKm) (fun _ _ => Classical.propDecidable _)
    ((candidateRows db uid a b filt).filter (inRadius rk)))]
  rw [List.mem_filter]
  simp only [inRadius, decide_eq_true_eq]

theorem nearbyRowsSorted_sorted (db : DB) (uid : Nat) (a b rk : ℝ)
    (filt : Option Status) :
    (nearbyRowsSorted db uid a b rk filt).Sorted
      (fun x y : NearbyRow => x.distanceKm ≤ y.distanceKm) := by
  haveI : IsTotal NearbyRow (fun x y : NearbyRow => x.distanceKm ≤ y.distanceKm) :=
    ⟨fun x y => le_total _ _⟩
  haveI : IsTrans NearbyRow (fun x y : NearbyRow => x.distanceKm ≤ y.distanceKm) :=
    ⟨fun _ _ _ hxy hyz => le_trans hxy hyz⟩
  exact @List.sorted_insertionSort NearbyRow
    (fun x y => x.distanceKm ≤ y.distanceKm) (fun _ _ => Classical.propDecidable _)
    _ _ _

/-! ## Claim theorems: proximity engine -/

/-- Claim C5: a successful nearby query returns exactly the enrichments of
those saved-place rows of the requesting user (restricted by the status filter
when given, joined to their Place coordinates) whose computed distance to the
query point is at most the requested radius — every returned distance is
within the radius, and no in-radius candidate is excluded. -/
theorem radius_filter_exact (db : DB) (uid : Nat) (userLat userLng : ℝ)
    (radiusq : Option ℝ) (filt : Option Status) (out : List NearbyResult)
    (h : findNearby db uid (some userLat) (some userLng) radiusq filt = .ok out) :
    ∀ res, res ∈ out ↔
      ∃ sp ∈ db.savedPlaces, ∃ q ∈ db.places,
        sp.userId = uid ∧ statusMatches filt sp = true ∧ q.placeId = sp.placeId ∧
        distanceKmCode userLat userLng q.lat q.lng ≤ radiusq.getD 2000 / 1000 ∧
        res = enrich db ⟨sp, q.lat, q.lng, distanceKmCode userLat userLng q.lat q.lng⟩ := by
  intro res
  rw [findNearby_ok h]
  unfold nearbyResults
  rw [List.mem_map]
  constructor
  · rintro ⟨row, hrow, rfl⟩
    obtain ⟨hcand, hrad⟩ := mem_nearbyRowsSorted.mp hrow
    rcases mem_candidateRows.mp hcand with ⟨sp, hsp, q, hq, huid, hstat, hqid, rfl⟩
    exact ⟨sp, hsp, q, hq, huid, hstat, hqid, hrad, rfl⟩
  · rintro ⟨sp, hsp, q, hq, huid, hstat, hqid, hrad, rfl⟩
    exact ⟨⟨sp, q.lat, q.lng, distanceKmCode userLat userLng q.lat q.lng⟩,
      mem_nearbyRowsSorted.mpr
        ⟨mem_candidateRows.mpr ⟨sp, hsp, q, hq, huid, hstat, hqid, rfl⟩, hrad⟩,
      rfl⟩

/-- Witness for C5: on an empty store the nearby query succeeds with an empty
result, and the characterization holds for it. -/
theorem radius_filter_exact_witness :
    (⟨⟨"s", 1, "p", "t", Status.WISHLIST, none, none, 0, 0⟩, 0, 0, 0, 0, none⟩ :
        NearbyResult) ∈ ([] : List NearbyResult) ↔
      ∃ sp ∈ (⟨[], [], [], []⟩ : DB).savedPlaces,
        ∃ q ∈ (⟨[], [], [], []⟩ : DB).places,
        sp.userId = 1 ∧ statusMatches none sp = true ∧ q.placeId = sp.placeId ∧
        distanceKmCode 0 0 q.lat q.lng ≤ (none : Option ℝ).getD 2000 / 1000 ∧
        (⟨⟨"s", 1, "p", "t", Status.WISHLIST, none, none, 0, 0⟩, 0, 0, 0, 0, none⟩ :
            NearbyResult) =
          enrich ⟨[], [], [], []⟩
            ⟨sp, q.lat, q.lng, distanceKmCode 0 0 q.lat q.lng⟩ :=
  radius_filter_exact ⟨[], [], [], []⟩ 1 0 0 none none []
    (by norm_num [findNearby, nearbyResults, nearbyRowsSorted, candidateRows])
    ⟨⟨"s", 1, "p", "t", Status.WISHLIST, none, none, 0, 0⟩, 0, 0, 0, 0, none⟩

/-- Claim C6: a successful nearby query's result list is sorted in
non-decreasing order of the computed distance from the query point to each
result's stored coordinates. -/
theorem results_sorted_by_distance (db : DB) (uid : Nat) (userLat userLng : ℝ)
    (radiusq : Option ℝ) (filt : Option Status) (out : List NearbyResult)
    (h : findNearby db uid (some userLat) (some userLng) radiusq filt = .ok out) :
    out.Sorted (fun x y : NearbyResult =>
      distanceKmCode userLat userLng x.lat x.lng ≤
        distanceKmCode userLat userLng y.lat y.lng) := by
  rw [findNearby_ok h]
  unfold nearbyResults List.Sorted
  rw [List.pairwise_map]
  have hs := nearbyRowsSorted_sorted db uid userLat userLng
    (radiusq.getD 2000 / 1000) filt
  refine List.Pairwise.imp_of_mem ?_ hs
  intro x y hx hy hxy
  have hdx := candidateRows_distance (mem_nearbyRowsSorted.mp hx).1
  have hdy := candidateRows_distance (mem_nearbyRowsSorted.mp hy).1
  show distanceKmCode userLat userLng x.lat x.lng ≤
    distanceKmCode userLat userLng y.lat y.lng
  rw [← hdx, ← hdy]
  exact hxy

/-- Witness for C6: the empty-store nearby query's result is sorted. -/
theorem results_sorted_by_distance_witness :
    ([] : List NearbyResult).Sorted (fun x y : NearbyResult =>
      distanceKmCode 0 0 x.lat x.lng ≤ distanceKmCode 0 0 y.lat y.lng) :=
  results_sorted_by_distance ⟨[], [], [], []⟩ 1 0 0 none none []
    (by norm_num [findNearby, nearbyResults, nearbyRowsSorted, candidateRows])

/-- Claim C10 (implicit): an omitted radius is not rejected — `getNearbyPlaces`
substitutes the default of 2000 meters (2 km) and, for in-range coordinates,
proceeds to a successful response; an explicitly supplied radius ≤ 0 is still
rejected as a client error. -/
theorem default_radius (db : DB) (uid : Nat) (lat lng : ℝ) (filt : Option Status) :
    (findNearby db uid (some lat) (some lng) none filt =
        findNearby db uid (some lat) (some lng) (some 2000) filt) ∧
      (-90 ≤ lat → lat ≤ 90 → -180 ≤ lng → lng ≤ 180 →
        findNearby db uid (some lat) (some lng) none filt =
          .ok (nearbyResults db uid lat lng 2 filt)) ∧
      (∀ rm : ℝ, rm ≤ 0 → -90 ≤ lat → lat ≤ 90 → -180 ≤ lng → lng ≤ 180 →
        findNearby db uid (some lat) (some lng) (some rm) filt =
          .error (.badRequest "Radius must be greater than 0")) := by
  refine ⟨rfl, ?_, ?_⟩
  · intro h1 h2 h3 h4
    unfold findNearby
    dsimp only
    rw [if_neg (not_or.mpr ⟨not_lt.mpr h1, not_lt.mpr h2⟩),
      if_neg (not_or.mpr ⟨not_lt.mpr h3, not_lt.mpr h4⟩)]
    rw [if_neg (by norm_num : ¬ ((none : Option ℝ).getD 2000 ≤ 0))]
    norm_num
  · intro rm hrm h1 h2 h3 h4
    unfold findNearby
    dsimp only
    rw [if_neg (not_or.mpr ⟨not_lt.mpr h1, not_lt.mpr h2⟩),
      if_neg (not_or.mpr ⟨not_lt.mpr h3, not_lt.mpr h4⟩)]
    rw [if_pos (by simpa using hrm : (some rm).getD 2000 ≤ 0)]

/-- Witness for C10: at the origin, a supplied radius of −5 meters is rejected
while the radius-less query equals the radius-2000 query. -/
theorem default_radius_witness :
    findNearby ⟨[], [], [], []⟩ 1 (some 0) (some 0) (some (-5)) none =
      .error (.badRequest "Radius must be greater than 0") :=
  (default_radius ⟨[], [], [], []⟩ 1 0 0 none).2.2 (-5) (by norm_num)
    (by norm_num) (by norm_num) (by norm_num) (by norm_num)

end Travel
